import Mathlib

/-!
Verification of the CT_classifier repository core: the MONAI-based CT
preprocessing pipeline (`src/data/preprocessing.py`) and the 3D Vision
Transformer model (`src/models/vit3d.py`).

The embedding is shallow: tensors are shapes plus flattened rational data,
the MONAI transform chain is a list of data functions with an explicit
write-event log, and the model constructor is a pure function building a
record of the modules and learned-parameter metadata that `__init__`
creates.
-/

/-- A tensor: a shape (list of dimension sizes, outermost first) together
with its flattened contents in row-major order. -/
structure Tensor where
  shape : List Nat
  data : List Rat
deriving DecidableEq, Repr

/-- Number of dimensions of a tensor (`tensor.ndim` in the source). -/
def Tensor.ndim (t : Tensor) : Nat := t.shape.length

/-- Models `torch.zeros(shape)`: the all-zero tensor of a given shape. -/
def Tensor.zeros (shape : List Nat) : Tensor :=
  ⟨shape, List.replicate shape.prod 0⟩

/-- Models `tensor.unsqueeze(0)`: prepend a singleton dimension; the flattened
data is unchanged. -/
def Tensor.unsqueeze0 (t : Tensor) : Tensor :=
  ⟨1 :: t.shape, t.data⟩

/-- Models `tensor[0, ...]`: select index 0 of the leading dimension. In
row-major order this keeps the first `shape.tail.prod` flattened entries. -/
def Tensor.selectChannel0 (t : Tensor) : Tensor :=
  ⟨t.shape.tail, t.data.take t.shape.tail.prod⟩

/-- Failures that the MONAI transform chain can raise: a missing or
unreadable file at load time, or any other exception inside a transform. -/
inductive PipelineError where
  | loadError (msg : String)
  | exception (exnType : String) (msg : String)
deriving DecidableEq, Repr

/-- Log levels used by `preprocess_ct_volume_monai`. -/
inductive LogLevel where
  | warning
  | error
deriving DecidableEq, Repr

/-- A log record: the level and the file path it mentions. -/
structure LogMsg where
  level : LogLevel
  path : String
deriving DecidableEq, Repr

/-- The dimension-fixing prelude of `preprocess_ct_volume_monai`
(src/data/preprocessing.py lines 121-126): a 3-d tensor is `unsqueeze(0)`d;
a 4-d tensor whose leading (channel) dimension is not 1 gets a warning
logged and, when that dimension is greater than 1, channel 0 is kept and
re-unsqueezed; anything else passes through untouched. -/
def fixChannelDim (nii_path : String) (t0 : Tensor) : Tensor × List LogMsg :=
  if t0.ndim = 3 then
    (t0.unsqueeze0, [])
  else if t0.ndim = 4 ∧ t0.shape.headD 0 ≠ 1 then
    (if t0.shape.headD 0 > 1 then t0.selectChannel0.unsqueeze0 else t0,
     [⟨.warning, nii_path⟩])
  else
    (t0, [])

/-- Models `preprocess_ct_volume_monai` (src/data/preprocessing.py lines 97-136).
The transform chain itself is external library code, so the function is
modelled over its outcome `res : Except PipelineError Tensor`.  Mirrors the
source exactly: the channel fix of `fixChannelDim`, then the check
`shape[1:] == target_shape_dhw and shape[0] == 1`, substituting
`torch.zeros((1, *target_shape_dhw))` and logging an error on mismatch; any
raised exception is caught, logged and also converted to the zero tensor.
Returns the tensor together with the emitted log. -/
def preprocess_ct_volume_monai (nii_path : String)
    (res : Except PipelineError Tensor) (target_shape_dhw : List Nat) :
    Tensor × List LogMsg :=
  match res with
  | .error _ => (Tensor.zeros (1 :: target_shape_dhw), [⟨.error, nii_path⟩])
  | .ok t0 =>
    if (fixChannelDim nii_path t0).1.shape.tail = target_shape_dhw ∧
        (fixChannelDim nii_path t0).1.shape.headD 0 = 1 then
      fixChannelDim nii_path t0
    else
      (Tensor.zeros (1 :: target_shape_dhw),
       (fixChannelDim nii_path t0).2 ++ [⟨.error, nii_path⟩])

/-- A list whose tail is the target and whose head is 1 is `1 :: target`. -/
theorem shape_eq_of_tail_head (l target : List Nat)
    (ht : l.tail = target) (hh : l.headD 0 = 1) : l = 1 :: target := by
  cases l with
  | nil => simp at hh
  | cons a l => simp_all

/-- C1: for every input path and every outcome of the transform chain,
`preprocess_ct_volume_monai` returns a tensor of shape
`(1, *target_shape_dhw)` and (being a total function of the chain outcome)
never propagates a failure; on each failure mode it returns the all-zero
tensor of exactly that shape and logs an error for the offending path:
both when the chain raises (a missing or unreadable file, or any exception
inside a transform) and when the chain succeeds but the post-transform
tensor — after the channel fix — does not have shape
`(1, *target_shape_dhw)`. -/
theorem preprocess_shape_and_failsoft (nii_path : String)
    (res : Except PipelineError Tensor) (target_shape_dhw : List Nat) :
    (preprocess_ct_volume_monai nii_path res target_shape_dhw).1.shape
      = 1 :: target_shape_dhw ∧
    (∀ e, res = .error e →
      preprocess_ct_volume_monai nii_path res target_shape_dhw
        = (Tensor.zeros (1 :: target_shape_dhw), [⟨.error, nii_path⟩])) ∧
    (∀ t0, res = .ok t0 →
      (fixChannelDim nii_path t0).1.shape ≠ 1 :: target_shape_dhw →
      preprocess_ct_volume_monai nii_path res target_shape_dhw
        = (Tensor.zeros (1 :: target_shape_dhw),
           (fixChannelDim nii_path t0).2 ++ [⟨.error, nii_path⟩])) := by
  refine ⟨?_, ?_, ?_⟩
  · cases res with
    | error e => rfl
    | ok t0 =>
      simp only [preprocess_ct_volume_monai]
      split
      · next h => exact shape_eq_of_tail_head _ _ h.1 h.2
      · rfl
  · intro e he
    subst he
    rfl
  · intro t0 he hne
    subst he
    simp only [preprocess_ct_volume_monai]
    rw [if_neg (fun hcheck =>
      hne (shape_eq_of_tail_head _ _ hcheck.1 hcheck.2))]

/-- Witness for C1 at two concrete failing inputs: a chain exception, and a
chain success whose tensor (a 2-d one, untouched by the channel fix) does
not match the target shape. -/
theorem preprocess_shape_and_failsoft_witness :
    preprocess_ct_volume_monai "missing.nii.gz"
        (.error (.loadError "file not found")) [4, 4, 4]
      = (Tensor.zeros [1, 4, 4, 4], [⟨.error, "missing.nii.gz"⟩]) ∧
    preprocess_ct_volume_monai "bad.nii.gz" (.ok ⟨[5, 5], []⟩) [4, 4, 4]
      = (Tensor.zeros [1, 4, 4, 4], [⟨.error, "bad.nii.gz"⟩]) := by
  constructor
  · exact (preprocess_shape_and_failsoft "missing.nii.gz"
        (.error (.loadError "file not found")) [4, 4, 4]).2.1
      (.loadError "file not found") rfl
  · have h := (preprocess_shape_and_failsoft "bad.nii.gz"
        (.ok ⟨[5, 5], []⟩) [4, 4, 4]).2.2 ⟨[5, 5], []⟩ rfl (by decide)
    rw [h]
    rfl

/-- C9: when the transform chain yields a 4-dimensional tensor whose leading
channel dimension is greater than 1 and whose remaining (spatial) shape
matches the target, `preprocess_ct_volume_monai` does not substitute the
zero tensor: it logs a warning, keeps only channel 0 with a singleton
channel dimension re-added, and returns that tensor. -/
theorem preprocess_channel_fix (nii_path : String) (t0 : Tensor)
    (c : Nat) (target_shape_dhw : List Nat)
    (hs : t0.shape = c :: target_shape_dhw)
    (hlen : target_shape_dhw.length = 3) (hc : 1 < c) :
    preprocess_ct_volume_monai nii_path (.ok t0) target_shape_dhw
      = (⟨1 :: target_shape_dhw, t0.data.take target_shape_dhw.prod⟩,
         [⟨.warning, nii_path⟩]) := by
  have hndim : t0.ndim = 4 := by simp [Tensor.ndim, hs, hlen]
  have hhead : t0.shape.headD 0 = c := by simp [hs]
  have hfix : fixChannelDim nii_path t0
      = (⟨1 :: target_shape_dhw, t0.data.take target_shape_dhw.prod⟩,
         [⟨.warning, nii_path⟩]) := by
    simp only [fixChannelDim, hndim, hhead]
    have h3 : ¬ (4 = 3) := by decide
    have hne : c ≠ 1 := by omega
    simp [h3, hne, hc, Tensor.selectChannel0, Tensor.unsqueeze0, hs]
  simp [preprocess_ct_volume_monai, hfix]

/-- Witness for C9: a 4-d, 2-channel result of the expected spatial shape is
reduced to its first channel and returned, not zeroed. -/
theorem preprocess_channel_fix_witness :
    preprocess_ct_volume_monai "twochan.nii.gz"
        (.ok ⟨[2, 1, 1, 2], [5, 6, 7, 8]⟩) [1, 1, 2]
      = (⟨[1, 1, 1, 2], [5, 6]⟩, [⟨.warning, "twochan.nii.gz"⟩]) := by
  have h := preprocess_channel_fix "twochan.nii.gz"
      ⟨[2, 1, 1, 2], [5, 6, 7, 8]⟩ 2 [1, 1, 2] rfl (by decide) (by decide)
  rw [h]
  rfl

/-- Models `ScaleIntensityRanged` (MONAI library transform, applied per voxel).
Modelled from the spec: "clip raw intensity values to a configured
[min, max] range, then linearly rescale the clipped range to [0, 1]" — the
library computes `(x - a_min) / (a_max - a_min) * (b_max - b_min) + b_min`
and, when `clip=True`, clamps the result to `[b_min, b_max]`. -/
def scaleIntensityRange (aMin aMax bMin bMax : Rat) (clip : Bool)
    (x : Rat) : Rat :=
  let y := (x - aMin) / (aMax - aMin) * (bMax - bMin) + bMin
  if clip then min (max y bMin) bMax else y

/-- The intensity-normalization step as instantiated by
`create_monai_preprocessing_pipeline` (src/data/preprocessing.py lines
63-70): `a_min=clip_hu_min`, `a_max=clip_hu_max`, `b_min=0.0`, `b_max=1.0`,
`clip=True`. -/
def huNormalize (clip_hu_min clip_hu_max : Rat) (x : Rat) : Rat :=
  scaleIntensityRange clip_hu_min clip_hu_max 0 1 true x

/-- C5: the intensity step clips each voxel to `[clip_hu_min, clip_hu_max]`
and rescales that range linearly onto `[0, 1]` — for every voxel the output
is the clamped affine image `min (max ((x - lo) / (hi - lo)) 0) 1`; in the
configured scenario `clip_hu_min = -1000`, `clip_hu_max = 400`, a voxel at
exactly -1000 maps to 0, a voxel at 400 maps to 1, and a voxel at -1600
(below the minimum) also maps to 0. -/
theorem huNormalize_clips_and_rescales :
    (∀ lo hi x : Rat,
      huNormalize lo hi x = min (max ((x - lo) / (hi - lo)) 0) 1) ∧
    huNormalize (-1000) 400 (-1000) = 0 ∧
    huNormalize (-1000) 400 400 = 1 ∧
    huNormalize (-1000) 400 (-1600) = 0 := by
  refine ⟨?_, ?_, ?_, ?_⟩
  · intro lo hi x
    simp [huNormalize, scaleIntensityRange]
  · norm_num [huNormalize, scaleIntensityRange]
  · norm_num [huNormalize, scaleIntensityRange]
  · norm_num [huNormalize, scaleIntensityRange]

/-- A MONAI dictionary transform, reduced to its effect on the image
tensor plus the list of files it writes as a side effect. -/
structure MonaiTransform where
  tname : String
  apply : Tensor → Tensor
  written : Tensor → List String

/-- A pure library transform: transforms the tensor, writes nothing. -/
def MonaiTransform.pure (tname : String) (f : Tensor → Tensor) :
    MonaiTransform :=
  ⟨tname, f, fun _ => []⟩

/-- Models `SaveImaged` (MONAI library transform).  Modelled from the spec:
"write the transformed volume to disk ... preserving spatial metadata in
the written file" — the library writes the image into `output_dir` and
returns the data dictionary unchanged. -/
def saveImaged (output_dir : String) : MonaiTransform :=
  ⟨"SaveImaged", fun t => t, fun _ => [output_dir]⟩

/-- The data semantics of the six pure library transforms that
`create_monai_preprocessing_pipeline` instantiates ahead of `EnsureTyped`;
they are external MONAI code, so the pipeline is modelled over them. -/
structure LibTransforms where
  loadImaged : Tensor → Tensor
  ensureChannelFirstd : Tensor → Tensor
  orientationd : Tensor → Tensor
  spacingd : Tensor → Tensor
  scaleIntensityRanged : Tensor → Tensor
  resized : Tensor → Tensor
  ensureTyped : Tensor → Tensor

/-- Python's `list.insert(-1, x)`: insert `x` immediately before the last
element (for an empty list, `x` becomes the only element). -/
def insertBeforeLast (l : List α) (x : α) : List α :=
  l.dropLast ++ x :: l.drop (l.length - 1)

/-- Models `create_monai_preprocessing_pipeline` (src/data/preprocessing.py lines
26-95): the fixed seven-transform chain `LoadImaged, EnsureChannelFirstd,
Orientationd, Spacingd, ScaleIntensityRanged, Resized, EnsureTyped`; when
`save_transformed_path` is provided, a `SaveImaged` transform is inserted
at position -1, i.e. immediately before the final `EnsureTyped`. -/
def create_monai_preprocessing_pipeline (lib : LibTransforms)
    (save_transformed_path : Option String) : List MonaiTransform :=
  let transforms : List MonaiTransform :=
    [MonaiTransform.pure "LoadImaged" lib.loadImaged,
     MonaiTransform.pure "EnsureChannelFirstd" lib.ensureChannelFirstd,
     MonaiTransform.pure "Orientationd" lib.orientationd,
     MonaiTransform.pure "Spacingd" lib.spacingd,
     MonaiTransform.pure "ScaleIntensityRanged" lib.scaleIntensityRanged,
     MonaiTransform.pure "Resized" lib.resized,
     MonaiTransform.pure "EnsureTyped" lib.ensureTyped]
  match save_transformed_path with
  | none => transforms
  | some dir => insertBeforeLast transforms (saveImaged dir)

/-- Models `Compose`: run the transforms in order, threading the tensor and
accumulating the write events. -/
def runPipeline (ts : List MonaiTransform) (t : Tensor) :
    Tensor × List String :=
  ts.foldl (fun acc tr => (tr.apply acc.1, acc.2 ++ tr.written acc.1)) (t, [])

/-- C8: configuring a persistence destination does not alter the tensor
passed downstream — for every input, the pipeline built with a save path
computes the same in-memory tensor as the pipeline built without one; the
disk-writing `SaveImaged` is inserted immediately before the final
`EnsureTyped` type cast and its data transform is the identity. -/
theorem save_path_frame_effect (lib : LibTransforms) (dir : String)
    (t : Tensor) :
    (runPipeline (create_monai_preprocessing_pipeline lib (some dir)) t).1
      = (runPipeline (create_monai_preprocessing_pipeline lib none) t).1 ∧
    create_monai_preprocessing_pipeline lib (some dir)
      = (create_monai_preprocessing_pipeline lib none).dropLast
        ++ [saveImaged dir, MonaiTransform.pure "EnsureTyped" lib.ensureTyped] ∧
    (saveImaged dir).apply = fun x => x :=
  ⟨rfl, rfl, rfl⟩

/-- A triple of sizes `(depth, height, width)`, the 3-tuples
`volume_size` and `patch_size` of the source. -/
structure Dims3 where
  d : Nat
  h : Nat
  w : Nat
deriving DecidableEq, Repr

/-- The keyword arguments of `VisionTransformer3D.__init__`
(src/models/vit3d.py lines 139-142). -/
structure ViTConfig where
  volume_size : Dims3
  patch_size : Dims3
  in_channels : Nat
  num_classes : Nat
  embed_dim : Nat
  depth : Nat
  num_heads : Nat
  mlp_ratio : Rat
  qkv_bias : Bool
  drop_rate : Rat
  attn_drop_rate : Rat
  use_checkpointing : Bool
deriving DecidableEq, Repr

/-- The Python default values of those keyword arguments:
`volume_size=(96, 224, 224), patch_size=(16, 16, 16), in_channels=1,
num_classes=18, embed_dim=768, depth=12, num_heads=12, mlp_ratio=4.,
qkv_bias=True, drop_rate=0., attn_drop_rate=0., use_checkpointing=False`. -/
def defaultViTConfig : ViTConfig :=
  { volume_size := ⟨96, 224, 224⟩
    patch_size := ⟨16, 16, 16⟩
    in_channels := 1
    num_classes := 18
    embed_dim := 768
    depth := 12
    num_heads := 12
    mlp_ratio := 4
    qkv_bias := true
    drop_rate := 0
    attn_drop_rate := 0
    use_checkpointing := false }

/-- Models `PatchEmbed3D` (src/models/vit3d.py lines 9-28): stores the sizes and
owns the `Conv3d(in_channels, embed_dim, kernel_size=patch_size,
stride=patch_size)` projection. -/
structure PatchEmbed3D where
  volume_size : Dims3
  patch_size : Dims3
  in_channels : Nat
  embed_dim : Nat
deriving DecidableEq, Repr

/-- Models `self.n_patches` (src/models/vit3d.py lines 23-25): the product of the
per-axis floor divisions `volume_size[i] // patch_size[i]`. -/
def PatchEmbed3D.n_patches (pe : PatchEmbed3D) : Nat :=
  pe.volume_size.d / pe.patch_size.d * (pe.volume_size.h / pe.patch_size.h)
    * (pe.volume_size.w / pe.patch_size.w)

/-- A layer of the `nn.Sequential` classification head. -/
inductive HeadLayer where
  | linear (in_features out_features : Nat)
  | relu
  | dropout (p : Rat)
deriving DecidableEq, Repr

/-- The `VisionTransformer3D` module state after `__init__`
(src/models/vit3d.py lines 139-179): the stored configuration attributes,
the patch-embedding submodule, the row count of the positional-embedding
parameter `pos_embed` (shape `(1, num_patches + 1, embed_dim)`), and the
classification head `nn.Sequential(Linear(embed_dim, 256), ReLU(),
Dropout(0.5), Linear(256, num_classes))`.  `depth` is the length of
`self.blocks`; `num_heads`, `mlp_ratio`, `qkv_bias` and the drop rates are
carried inside the blocks. -/
structure VisionTransformer3D where
  num_classes : Nat
  embed_dim : Nat
  use_checkpointing : Bool
  patch_embed : PatchEmbed3D
  pos_embed_rows : Nat
  depth : Nat
  num_heads : Nat
  mlp_ratio : Rat
  qkv_bias : Bool
  drop_rate : Rat
  attn_drop_rate : Rat
  head : List HeadLayer
deriving DecidableEq, Repr

/-- The body of `VisionTransformer3D.__init__`: build every submodule.  The
head hardcodes the hidden width 256 and `Dropout(0.5)`; `drop_rate` is used
only for `pos_drop` and the blocks, never for the head. -/
def VisionTransformer3D.build (cfg : ViTConfig) : VisionTransformer3D :=
  let patch_embed : PatchEmbed3D :=
    ⟨cfg.volume_size, cfg.patch_size, cfg.in_channels, cfg.embed_dim⟩
  { num_classes := cfg.num_classes
    embed_dim := cfg.embed_dim
    use_checkpointing := cfg.use_checkpointing
    patch_embed := patch_embed
    pos_embed_rows := patch_embed.n_patches + 1
    depth := cfg.depth
    num_heads := cfg.num_heads
    mlp_ratio := cfg.mlp_ratio
    qkv_bias := cfg.qkv_bias
    drop_rate := cfg.drop_rate
    attn_drop_rate := cfg.attn_drop_rate
    head := [.linear cfg.embed_dim 256, .relu, .dropout (1/2),
             .linear 256 cfg.num_classes] }

/-- A construction-time configuration error (the spec's
`ConfigurationError`). -/
inductive ConfigurationError where
  | patchSizeMismatch (msg : String)
deriving DecidableEq, Repr

/-- The outcome of calling `VisionTransformer3D(**cfg)`: neither
`PatchEmbed3D.__init__` nor `VisionTransformer3D.__init__` performs any
divisibility validation or raises for an indivisible configuration — the
patch count is computed by floor division and construction always
succeeds. -/
def VisionTransformer3D.construct (cfg : ViTConfig) :
    Except ConfigurationError VisionTransformer3D :=
  .ok (VisionTransformer3D.build cfg)

/-- C2 counterexample: with `volume_size=(33,33,33)` and
`patch_size=(16,16,16)` no volume dimension is divisible by its patch
dimension, yet model construction does not abort with a configuration
error: it succeeds, computing `n_patches = 8` by floor division. -/
theorem construct_no_divisibility_check :
    (33 % 16 ≠ 0) ∧
    VisionTransformer3D.construct
        { defaultViTConfig with volume_size := ⟨33, 33, 33⟩ }
      = .ok (VisionTransformer3D.build
          { defaultViTConfig with volume_size := ⟨33, 33, 33⟩ }) ∧
    (VisionTransformer3D.build
        { defaultViTConfig with volume_size := ⟨33, 33, 33⟩ }).patch_embed.n_patches
      = 8 := by
  refine ⟨by decide, rfl, by decide⟩

/-- C2 amended: model construction performs no divisibility check and never
signals a configuration error — for every configuration (with nonzero patch
dimensions, so that the Python floor divisions are defined) it returns the
built model, whose patch count is the product of the per-axis floor
divisions, silently dropping any remainder voxels. -/
theorem construct_always_succeeds (cfg : ViTConfig)
    (hd : 0 < cfg.patch_size.d) (hh : 0 < cfg.patch_size.h)
    (hw : 0 < cfg.patch_size.w) :
    VisionTransformer3D.construct cfg = .ok (VisionTransformer3D.build cfg) ∧
    (VisionTransformer3D.build cfg).patch_embed.n_patches
      = cfg.volume_size.d / cfg.patch_size.d
        * (cfg.volume_size.h / cfg.patch_size.h)
        * (cfg.volume_size.w / cfg.patch_size.w) :=
  ⟨rfl, rfl⟩

/-- Witness for the amended C2 at the indivisible configuration
`volume_size=(33,33,33)`, `patch_size=(16,16,16)`. -/
theorem construct_always_succeeds_witness :
    VisionTransformer3D.construct
        { defaultViTConfig with volume_size := ⟨33, 33, 33⟩ }
      = .ok (VisionTransformer3D.build
          { defaultViTConfig with volume_size := ⟨33, 33, 33⟩ }) ∧
    (VisionTransformer3D.build
        { defaultViTConfig with volume_size := ⟨33, 33, 33⟩ }).patch_embed.n_patches
      = 33 / 16 * (33 / 16) * (33 / 16) :=
  construct_always_succeeds _ (by decide) (by decide) (by decide)

/-- C4: for every configuration whose volume dimensions are exactly
divisible by the matching patch dimensions (witnessed by the quotients
`kd, kh, kw`), the constructed model's patch count is `(D/pd)*(H/ph)*(W/pw)
= kd*kh*kw` and the positional-embedding table has `n_patches + 1` rows. -/
theorem n_patches_and_seq_len (cfg : ViTConfig) (m : VisionTransformer3D)
    (kd kh kw : Nat)
    (hm : VisionTransformer3D.construct cfg = .ok m)
    (hpd : 0 < cfg.patch_size.d) (hph : 0 < cfg.patch_size.h)
    (hpw : 0 < cfg.patch_size.w)
    (hd : cfg.volume_size.d = kd * cfg.patch_size.d)
    (hh : cfg.volume_size.h = kh * cfg.patch_size.h)
    (hw : cfg.volume_size.w = kw * cfg.patch_size.w) :
    m.patch_embed.n_patches = kd * kh * kw ∧
    m.pos_embed_rows = kd * kh * kw + 1 := by
  have hbuild : m = VisionTransformer3D.build cfg := by
    have : Except.ok (VisionTransformer3D.build cfg)
        = (Except.ok m : Except ConfigurationError VisionTransformer3D) := hm
    exact (Except.ok.injEq _ _ ▸ this).symm ▸ rfl
  subst hbuild
  have hn : (VisionTransformer3D.build cfg).patch_embed.n_patches
      = kd * kh * kw := by
    simp [VisionTransformer3D.build, PatchEmbed3D.n_patches, hd, hh, hw,
      Nat.mul_div_cancel _ hpd, Nat.mul_div_cancel _ hph,
      Nat.mul_div_cancel _ hpw]
  exact ⟨hn, by simp [VisionTransformer3D.build, PatchEmbed3D.n_patches] at hn ⊢; omega⟩

/-- Witness for C4: the spec scenario `volume_size=(32,32,32)`,
`patch_size=(16,16,16)` gives 8 patches and sequence length 9. -/
theorem n_patches_and_seq_len_witness :
    (VisionTransformer3D.build
        { defaultViTConfig with volume_size := ⟨32, 32, 32⟩ }).patch_embed.n_patches
      = 8 ∧
    (VisionTransformer3D.build
        { defaultViTConfig with volume_size := ⟨32, 32, 32⟩ }).pos_embed_rows
      = 9 :=
  n_patches_and_seq_len
    { defaultViTConfig with volume_size := ⟨32, 32, 32⟩ } _ 2 2 2 rfl
    (by decide) (by decide) (by decide) rfl rfl rfl

/-- C10: the classification head is architecture-fixed: for every
configuration — in particular for every value of `drop_rate` — the head is
`Linear(embed_dim, 256), ReLU, Dropout(0.5), Linear(256, num_classes)`,
with the hidden width hardcoded to 256 and the dropout probability
hardcoded to 0.5 rather than taken from `drop_rate`. -/
theorem head_fixed_architecture (cfg : ViTConfig) (r : Rat) :
    (VisionTransformer3D.build cfg).head
      = [.linear cfg.embed_dim 256, .relu, .dropout (1/2),
         .linear 256 cfg.num_classes] ∧
    (VisionTransformer3D.build { cfg with drop_rate := r }).head
      = (VisionTransformer3D.build cfg).head :=
  ⟨rfl, rfl⟩

/-- Models `torch.utils.checkpoint.checkpoint(block, x)`: recomputes the block on
the backward pass instead of storing activations, but on the forward data
path it computes exactly `block(x)`. -/
def checkpointCall (block : α → α) (x : α) : α := block x

/-- The condition of the branch in `forward_features`
(src/models/vit3d.py line 213): the checkpointed loop runs iff
`self.use_checkpointing and self.training`. -/
def checkpointedBranchTaken (use_checkpointing training : Bool) : Bool :=
  use_checkpointing && training

/-- The block loop of `VisionTransformer3D.forward_features`
(src/models/vit3d.py lines 210-218): when `self.use_checkpointing and
self.training`, each block is run through
`torch.utils.checkpoint.checkpoint`; otherwise each block is called
directly.  The blocks are abstracted as token-sequence functions since
their internals are irrelevant to the branch choice. -/
def runBlocks (blocks : List (α → α)) (use_checkpointing training : Bool)
    (x : α) : α :=
  if checkpointedBranchTaken use_checkpointing training then
    blocks.foldl (fun acc block => checkpointCall block acc) x
  else
    blocks.foldl (fun acc block => block acc) x

/-- C6: gradient checkpointing has no behavioral effect — for every list of
blocks, every mode and every input, the block loop with
`use_checkpointing=True` computes the same output as with
`use_checkpointing=False`; and the checkpointed path is taken only while
the model is in training mode. -/
theorem checkpointing_no_behavior_change (blocks : List (α → α))
    (use_checkpointing training : Bool) (x : α) :
    runBlocks blocks use_checkpointing training x
      = runBlocks blocks false training x ∧
    (checkpointedBranchTaken use_checkpointing training = true →
      training = true) := by
  constructor
  · cases h : checkpointedBranchTaken use_checkpointing training <;>
      simp [runBlocks, h, checkpointedBranchTaken, checkpointCall]
  · intro h
    exact ((Bool.and_eq_true _ _).mp h).2

/-- Witness for C6 with one concrete block on a concrete input. -/
theorem checkpointing_no_behavior_change_witness :
    runBlocks [fun n => n + 1, fun n => n * 2] true true (3 : Nat)
      = runBlocks [fun n => n + 1, fun n => n * 2] false true 3 ∧
    (checkpointedBranchTaken true true = true → true = true) :=
  checkpointing_no_behavior_change [fun n => n + 1, fun n => n * 2]
    true true 3

/-- The `isinstance` tag of the module owning a parameter. -/
inductive ModuleKind where
  | conv3d
  | linear
  | layerNorm
deriving DecidableEq, Repr

/-- How a parameter tensor is initialized. -/
inductive InitScheme where
  | truncNormal (std : Rat)
  | constVal (c : Rat)
  | frameworkDefault (k : ModuleKind)
deriving DecidableEq, Repr

/-- A learned parameter of `VisionTransformer3D`: either one of the two
bare `nn.Parameter`s, or a weight/bias of a submodule, tagged with the
owning module's path and class. -/
inductive ParamRef where
  | clsToken
  | posEmbed
  | moduleParam (owner : String) (kind : ModuleKind) (isBias : Bool)
deriving DecidableEq, Repr

/-- Models `VisionTransformer3D._init_weights` (src/models/vit3d.py lines
181-194): `trunc_normal_(std=0.02)` explicitly on `pos_embed` and
`cls_token`; then for every module, `nn.Linear` weights get
`trunc_normal_(std=0.02)` and biases `constant_(0)`, `nn.LayerNorm` biases
get `constant_(0)` and weights `constant_(1.0)`; every other module —
notably the `nn.Conv3d` patch projection — is left at its PyTorch default
initialization. -/
def initSchemeOf : ParamRef → InitScheme
  | .clsToken => .truncNormal (2/100)
  | .posEmbed => .truncNormal (2/100)
  | .moduleParam _ .linear false => .truncNormal (2/100)
  | .moduleParam _ .linear true => .constVal 0
  | .moduleParam _ .layerNorm true => .constVal 0
  | .moduleParam _ .layerNorm false => .constVal 1
  | .moduleParam _ .conv3d _ => .frameworkDefault .conv3d

/-- The learned parameters of one `TransformerBlock`
(src/models/vit3d.py lines 95-111): `norm1` (LayerNorm), `attn.qkv`
(Linear, bias from `qkv_bias=True`), `attn.proj` (Linear), `norm2`
(LayerNorm), `mlp.fc1` and `mlp.fc2` (Linear). -/
def blockParamRefs (i : Nat) : List ParamRef :=
  let p := "blocks." ++ toString i ++ "."
  [ .moduleParam (p ++ "norm1") .layerNorm false,
    .moduleParam (p ++ "norm1") .layerNorm true,
    .moduleParam (p ++ "attn.qkv") .linear false,
    .moduleParam (p ++ "attn.qkv") .linear true,
    .moduleParam (p ++ "attn.proj") .linear false,
    .moduleParam (p ++ "attn.proj") .linear true,
    .moduleParam (p ++ "norm2") .layerNorm false,
    .moduleParam (p ++ "norm2") .layerNorm true,
    .moduleParam (p ++ "mlp.fc1") .linear false,
    .moduleParam (p ++ "mlp.fc1") .linear true,
    .moduleParam (p ++ "mlp.fc2") .linear false,
    .moduleParam (p ++ "mlp.fc2") .linear true ]

/-- All learned parameters of a constructed `VisionTransformer3D`:
`cls_token`, `pos_embed`, the `patch_embed.proj` Conv3d weight and bias,
the per-block parameters, the final `norm` LayerNorm, and the two Linear
layers of the head (`head.0` and `head.3`). -/
def VisionTransformer3D.paramRefs (m : VisionTransformer3D) :
    List ParamRef :=
  [ParamRef.clsToken, ParamRef.posEmbed,
   .moduleParam "patch_embed.proj" .conv3d false,
   .moduleParam "patch_embed.proj" .conv3d true]
  ++ (List.range m.depth).flatMap blockParamRefs
  ++ [ .moduleParam "norm" .layerNorm false,
       .moduleParam "norm" .layerNorm true,
       .moduleParam "head.0" .linear false,
       .moduleParam "head.0" .linear true,
       .moduleParam "head.3" .linear false,
       .moduleParam "head.3" .linear true ]

/-- The kind of the module owning a parameter, when it lives in a
submodule. -/
def ParamRef.kindOf : ParamRef → Option ModuleKind
  | .moduleParam _ k _ => some k
  | _ => none

/-- The initialization policy the spec states: truncated normal (std 0.02)
for the aggregate token, the positional table and every weight of the
projection layers (the patch embedding included); zero for every bias; one
for every normalization scale.  Modelled from the spec for comparison with
`initSchemeOf`. -/
def specClaimedScheme : ParamRef → InitScheme
  | .clsToken => .truncNormal (2/100)
  | .posEmbed => .truncNormal (2/100)
  | .moduleParam _ .layerNorm false => .constVal 1
  | .moduleParam _ _ true => .constVal 0
  | .moduleParam _ _ false => .truncNormal (2/100)

/-- C3 counterexample: the patch-embedding projection weight is a learned
parameter of the default-configuration model, but `_init_weights` leaves it
at the Conv3d framework default — not the truncated-normal (std 0.02)
scheme the claim states for it. -/
theorem init_weights_misses_conv :
    ParamRef.moduleParam "patch_embed.proj" .conv3d false
      ∈ (VisionTransformer3D.build defaultViTConfig).paramRefs ∧
    initSchemeOf (.moduleParam "patch_embed.proj" .conv3d false)
      = .frameworkDefault .conv3d ∧
    initSchemeOf (.moduleParam "patch_embed.proj" .conv3d false)
      ≠ specClaimedScheme (.moduleParam "patch_embed.proj" .conv3d false) := by
  refine ⟨?_, rfl, by decide⟩
  simp [VisionTransformer3D.paramRefs]

/-- C3 amended: every learned parameter of the model except the Conv3d
patch-embedding projection follows the stated schemes (truncated normal
std 0.02 for the aggregate token, positional table and linear weights;
zero for linear and normalization biases; one for normalization scales),
while the patch-embedding projection's weight and bias keep the framework
default Conv3d initialization. -/
theorem init_weights_schemes (m : VisionTransformer3D) (p : ParamRef)
    (hp : p ∈ m.paramRefs) :
    (p.kindOf ≠ some ModuleKind.conv3d → initSchemeOf p = specClaimedScheme p) ∧
    (p.kindOf = some ModuleKind.conv3d →
      initSchemeOf p = .frameworkDefault .conv3d) := by
  clear hp
  constructor
  · intro hne
    cases p with
    | clsToken => rfl
    | posEmbed => rfl
    | moduleParam owner k b =>
      cases k with
      | conv3d => simp [ParamRef.kindOf] at hne
      | linear => cases b <;> rfl
      | layerNorm => cases b <;> rfl
  · intro hk
    cases p with
    | clsToken => simp [ParamRef.kindOf] at hk
    | posEmbed => simp [ParamRef.kindOf] at hk
    | moduleParam owner k b =>
      cases k with
      | conv3d => rfl
      | linear => simp [ParamRef.kindOf] at hk
      | layerNorm => simp [ParamRef.kindOf] at hk

/-- Witness for the amended C3 at the final-norm scale parameter of the
default model: a LayerNorm weight, initialized to the constant 1. -/
theorem init_weights_schemes_witness :
    ((ParamRef.moduleParam "norm" .layerNorm false).kindOf
        ≠ some ModuleKind.conv3d →
      initSchemeOf (.moduleParam "norm" .layerNorm false)
        = specClaimedScheme (.moduleParam "norm" .layerNorm false)) ∧
    ((ParamRef.moduleParam "norm" .layerNorm false).kindOf
        = some ModuleKind.conv3d →
      initSchemeOf (.moduleParam "norm" .layerNorm false)
        = .frameworkDefault .conv3d) :=
  init_weights_schemes (VisionTransformer3D.build defaultViTConfig)
    (.moduleParam "norm" .layerNorm false)
    (by simp [VisionTransformer3D.paramRefs])

/-- Python `int(x)` on a rational: truncation toward zero, `num / den` in
truncating integer division. -/
def pyInt (x : Rat) : Int := Int.tdiv x.num x.den

/-- Models `mlp_hidden_dim = int(dim * mlp_ratio)` (src/models/vit3d.py line
109). -/
def mlpHiddenDim (dim : Nat) (mlp_ratio : Rat) : Nat :=
  (pyInt (dim * mlp_ratio)).toNat

/-- Parameter count of `nn.Conv3d(in_channels, embed_dim,
kernel_size=patch_size, stride=patch_size)`: the kernel weight
`embed_dim × in_channels × pd × ph × pw` plus the default bias of size
`embed_dim`. -/
def convParamCount (pe : PatchEmbed3D) : Nat :=
  pe.embed_dim * pe.in_channels * pe.patch_size.d * pe.patch_size.h
    * pe.patch_size.w + pe.embed_dim

/-- Parameter count of `nn.Linear(in_features, out_features, bias)`. -/
def linearParamCount (in_features out_features : Nat) (bias : Bool) : Nat :=
  out_features * in_features + (if bias then out_features else 0)

/-- Parameter count of `nn.LayerNorm(dim)`: scale and bias. -/
def layerNormParamCount (dim : Nat) : Nat := 2 * dim

/-- Parameter count of one head layer. -/
def HeadLayer.paramCount : HeadLayer → Nat
  | .linear in_features out_features => out_features * in_features + out_features
  | .relu => 0
  | .dropout _ => 0

/-- Parameter count of one `TransformerBlock(dim, num_heads, mlp_ratio,
qkv_bias)`: `norm1`, `attn.qkv` (`Linear(dim, dim*3, bias=qkv_bias)`),
`attn.proj` (`Linear(dim, dim)`), `norm2`, `mlp.fc1`
(`Linear(dim, hidden)`), `mlp.fc2` (`Linear(hidden, dim)`). -/
def blockParamCount (dim : Nat) (mlp_ratio : Rat) (qkv_bias : Bool) : Nat :=
  layerNormParamCount dim
  + linearParamCount dim (dim * 3) qkv_bias
  + linearParamCount dim dim true
  + layerNormParamCount dim
  + linearParamCount dim (mlpHiddenDim dim mlp_ratio) true
  + linearParamCount (mlpHiddenDim dim mlp_ratio) dim true

/-- Total learned-parameter count of a constructed model: the Conv3d patch
projection, `cls_token` (`1×1×embed_dim`), `pos_embed`
(`1×(n_patches+1)×embed_dim`), `depth` transformer blocks, the final
LayerNorm, and the head. -/
def VisionTransformer3D.numParams (m : VisionTransformer3D) : Nat :=
  convParamCount m.patch_embed
  + m.embed_dim
  + m.pos_embed_rows * m.embed_dim
  + m.depth * blockParamCount m.embed_dim m.mlp_ratio m.qkv_bias
  + layerNormParamCount m.embed_dim
  + (m.head.map HeadLayer.paramCount).sum

/-- Models `vit_tiny_3d` (src/models/vit3d.py lines 234-247): the defaults of
`VisionTransformer3D` overlaid with `embed_dim=192, depth=12, num_heads=3,
mlp_ratio=4.0` and the caller's `num_classes` and `use_checkpointing`. -/
def vit_tiny_3d (num_classes : Nat) (use_checkpointing : Bool) :
    VisionTransformer3D :=
  VisionTransformer3D.build
    { defaultViTConfig with
        embed_dim := 192, depth := 12, num_heads := 3, mlp_ratio := 4,
        num_classes := num_classes, use_checkpointing := use_checkpointing }

/-- Models `vit_small_3d` (src/models/vit3d.py lines 250-263): `embed_dim=384,
depth=12, num_heads=6, mlp_ratio=4.0`. -/
def vit_small_3d (num_classes : Nat) (use_checkpointing : Bool) :
    VisionTransformer3D :=
  VisionTransformer3D.build
    { defaultViTConfig with
        embed_dim := 384, depth := 12, num_heads := 6, mlp_ratio := 4,
        num_classes := num_classes, use_checkpointing := use_checkpointing }

/-- Models `vit_base_3d` (src/models/vit3d.py lines 266-279): `embed_dim=768,
depth=12, num_heads=12, mlp_ratio=4.0`. -/
def vit_base_3d (num_classes : Nat) (use_checkpointing : Bool) :
    VisionTransformer3D :=
  VisionTransformer3D.build
    { defaultViTConfig with
        embed_dim := 768, depth := 12, num_heads := 12, mlp_ratio := 4,
        num_classes := num_classes, use_checkpointing := use_checkpointing }

/-- Models `vit_large_3d` (src/models/vit3d.py lines 282-295): `embed_dim=1024,
depth=24, num_heads=16, mlp_ratio=4.0`. -/
def vit_large_3d (num_classes : Nat) (use_checkpointing : Bool) :
    VisionTransformer3D :=
  VisionTransformer3D.build
    { defaultViTConfig with
        embed_dim := 1024, depth := 24, num_heads := 16, mlp_ratio := 4,
        num_classes := num_classes, use_checkpointing := use_checkpointing }

/-- C7: for every `num_classes` (and either checkpointing flag), the four
preset factories produce models with strictly increasing total parameter
counts: tiny < small < base < large. -/
theorem preset_params_strictly_increasing (num_classes : Nat) (b : Bool) :
    (vit_tiny_3d num_classes b).numParams
      < (vit_small_3d num_classes b).numParams ∧
    (vit_small_3d num_classes b).numParams
      < (vit_base_3d num_classes b).numParams ∧
    (vit_base_3d num_classes b).numParams
      < (vit_large_3d num_classes b).numParams := by
  have h192 : mlpHiddenDim 192 4 = 768 := by
    norm_num [mlpHiddenDim, pyInt]
    decide
  have h384 : mlpHiddenDim 384 4 = 1536 := by
    norm_num [mlpHiddenDim, pyInt]
    decide
  have h768 : mlpHiddenDim 768 4 = 3072 := by
    norm_num [mlpHiddenDim, pyInt]
    decide
  have h1024 : mlpHiddenDim 1024 4 = 4096 := by
    norm_num [mlpHiddenDim, pyInt]
    decide
  simp only [vit_tiny_3d, vit_small_3d, vit_base_3d, vit_large_3d,
    VisionTransformer3D.numParams, VisionTransformer3D.build,
    blockParamCount, convParamCount, linearParamCount, layerNormParamCount,
    PatchEmbed3D.n_patches, HeadLayer.paramCount, defaultViTConfig,
    List.map, List.sum, h192, h384, h768, h1024, ite_true,
    List.foldr_cons, List.foldr_nil]
  omega
